import Mathlib

/-!
Shallow embedding of the `simple-chatbot` repository core
(`src/function_agent.py`, `src/main.py`, `src/rag_agent.py`) and proofs of
the specification claims about it.

External collaborators (the Ollama inference service, the
sentence-transformers embedding model, the ChromaDB vector store, the
LangGraph `ToolNode`) are modelled as explicit parameters: a collaborator
call that may raise a Python exception is a `PyResult` value, scripted
per call site.
-/

/-- A Python exception, tagged with enough of its class to distinguish the
error taxonomy the spec names (`ValueError`, `FileNotFoundError`, rest). -/
inductive PyErr where
  | valueError (m : String)
  | fileNotFound (m : String)
  | other (m : String)
deriving Repr, DecidableEq

/-- Python `str(e)` of an exception: its message. -/
def PyErr.msg : PyErr → String
  | .valueError m => m
  | .fileNotFound m => m
  | .other m => m

/-- Result of a Python call: a returned value or a raised exception. -/
abbrev PyResult (α : Type) := Except PyErr α

/-! ## Calculator tool (`src/function_agent.py`, lines 18-34) -/

/-- The character set built by the Python literal
`set("0123456789+-*/().\\s")` in `calculator`: the escape `\\` in Python
source is a single backslash, so the set holds the digits, `+ - * / ( ) .`,
a backslash and the letter `s` — not the whitespace class. -/
def allowed_chars : List Char := "0123456789+-*/().\\s".toList

/-- The whitelist test `all(c in allowed_chars for c in expression)`. -/
def calculator_check (expression : String) : Bool :=
  expression.toList.all (fun c => c ∈ allowed_chars)

/-- The tool `calculator(expression)`. Python's `eval` is an external oracle
`evalFn`; a raised exception from it is caught and rendered as
`"Error: " + str(e)`. -/
def calculator (evalFn : String → PyResult String) (expression : String) :
    String :=
  if calculator_check expression then
    match evalFn expression with
    | .ok r => r
    | .error e => "Error: " ++ e.msg
  else
    "Error: Invalid characters in expression"

/-! ## Claim C1 -/

/-- C1: the spec says the calculator whitelist is the digits,
`+ - * / ( ) .` and whitespace, and that expressions containing identifier
characters are rejected outright.  The code's literal `"0123456789+-*/().\\s"`
instead whitelists a backslash and the letter `s` and excludes the space:
the function's own docstring example `"2 + 3 * 4"` is rejected as invalid,
while the bare identifier `"s"` passes the whitelist and reaches `eval`. -/
theorem calculator_whitelist_code_bug :
    calculator (fun _ => Except.ok "35") "2 + 3 * 4"
      = "Error: Invalid characters in expression"
    ∧ calculator_check " " = false
    ∧ calculator_check "s" = true
    ∧ calculator_check "\\" = true := by
  decide

/-! ## Tool-calling state machine (`src/function_agent.py`, lines 37-112)

`FunctionCallerAgent._create_graph` builds a LangGraph `StateGraph` over
`MessagesState`: `START → agent`, `agent` conditionally to `tools` or
`END` via `should_continue`, `tools → agent`.  The inference service is
scripted as `script : Nat → String × List ToolCall`, giving the content
and tool calls of each successive model response; the LangGraph `ToolNode`
collaborator runs each requested tool through `execTool`. -/

/-- A structured tool-call request emitted by the model. -/
structure ToolCall where
  id : String
  name : String
  args : String
deriving Repr, DecidableEq

/-- A LangChain message, as stored in `MessagesState`.  An `ai` message
carries the model's tool-call requests; a `tool` message carries a tool
result together with the `tool_call_id` it answers. -/
inductive Message where
  | system (content : String)
  | human (content : String)
  | ai (content : String) (tool_calls : List ToolCall)
  | tool (content : String) (tool_call_id : String)
deriving Repr, DecidableEq

/-- Attribute access `message.content`. -/
def Message.content : Message → String
  | .system c => c
  | .human c => c
  | .ai c _ => c
  | .tool c _ => c

/-- Attribute access `message.tool_calls`: only assistant messages carry tool calls
(`hasattr(last_message, "tool_calls")` fails on the other roles). -/
def Message.tool_calls : Message → List ToolCall
  | .ai _ tcs => tcs
  | _ => []

/-- Whether a message has the tool role. -/
def Message.is_tool_role : Message → Bool
  | .tool _ _ => true
  | _ => false

/-- Router `should_continue(state)`: route to the `"tools"` node when the last
message carries tool calls, otherwise to `END` (LangGraph's `"__end__"`). -/
def should_continue (messages : List Message) : String :=
  if (messages.getLastD (Message.system "")).tool_calls ≠ [] then "tools"
  else "__end__"

/-- The LangGraph `ToolNode` collaborator: for every tool call of the last
(assistant) message, in emission order, run the tool and produce one
tool-role message whose `tool_call_id` is that request's id. -/
def tool_node (execTool : ToolCall → String) (messages : List Message) :
    List Message :=
  (messages.getLastD (Message.system "")).tool_calls.map
    (fun tc => Message.tool (execTool tc) tc.id)

/-- One compiled-graph run starting at the `agent` node: consume the next
scripted model response, append it, and either stop (`__end__`) or append
the `ToolNode` output and loop.  `fuel` bounds how many model responses may
be consumed; `none` means the run did not reach `END` within `fuel` model
round trips. -/
def run_graph (script : Nat → String × List ToolCall)
    (execTool : ToolCall → String) :
    Nat → Nat → List Message → Option (List Message)
  | 0, _, _ => none
  | fuel + 1, round, messages =>
    let ms1 := messages ++ [Message.ai (script round).1 (script round).2]
    if should_continue ms1 = "tools" then
      run_graph script execTool fuel (round + 1) (ms1 ++ tool_node execTool ms1)
    else
      some ms1

/-- The system prompt `FunctionCallerAgent.invoke` seeds the state with. -/
def fc_system_prompt : String :=
  "You are a helpful AI assistant with access to tools.\n                    Use the available tools when appropriate to answer questions accurately.\n                    For calculations, use the calculator tool.\n                    For current time, use the get_current_time tool."

/-- The initial `MessagesState` of `FunctionCallerAgent.invoke`. -/
def initial_messages (message : String) : List Message :=
  [Message.system fc_system_prompt, Message.human message]

/-- Method `FunctionCallerAgent.invoke(message)`: run the graph and return the
content of the final message.  `none` models a run that never ends. -/
def fc_invoke (script : Nat → String × List ToolCall)
    (execTool : ToolCall → String) (fuel : Nat) (message : String) :
    Option String :=
  (run_graph script execTool fuel 0 (initial_messages message)).map
    (fun result => (result.getLastD (Message.system "")).content)

/-! ## Claim C3 -/

/-- C3: when the first model response carries zero tool calls, the machine
stops after exactly one model round trip — the final state is the two seed
messages plus that single assistant message, so no tool-role message ever
exists and no tool runs — and `invoke` returns that response's content
verbatim. -/
theorem zero_tool_calls_one_round_trip
    (script : Nat → String × List ToolCall) (execTool : ToolCall → String)
    (msg : String) (fuel : Nat) (hfuel : 1 ≤ fuel)
    (h0 : (script 0).2 = []) :
    run_graph script execTool fuel 0 (initial_messages msg)
      = some (initial_messages msg ++ [Message.ai (script 0).1 []])
    ∧ (∀ m ∈ initial_messages msg ++ [Message.ai (script 0).1 []],
        m.is_tool_role = false)
    ∧ fc_invoke script execTool fuel msg = some (script 0).1 := by
  obtain ⟨fuel, rfl⟩ : ∃ k, fuel = k + 1 :=
    ⟨fuel - 1, (Nat.succ_pred_eq_of_pos hfuel).symm⟩
  have hrun : run_graph script execTool (fuel + 1) 0 (initial_messages msg)
      = some (initial_messages msg ++ [Message.ai (script 0).1 []]) := by
    simp [run_graph, should_continue, h0, Message.tool_calls,
      initial_messages]
  refine ⟨hrun, ?_, ?_⟩
  · intro m hm
    simp only [initial_messages, List.mem_append, List.mem_cons,
      List.mem_singleton, List.not_mem_nil, or_false] at hm
    rcases hm with (rfl | rfl) | rfl <;> rfl
  · simp only [fc_invoke, hrun, Option.map_some]
    simp [initial_messages, Message.content]

/-- C3 witness: a concrete script whose first response is "hello" with no
tool calls. -/
theorem zero_tool_calls_one_round_trip_witness :
    fc_invoke (fun _ => ("hello", [])) (fun _ => "") 5 "hi" = some "hello" :=
  (zero_tool_calls_one_round_trip (fun _ => ("hello", []))
    (fun _ => "") "hi" 5 (by decide) rfl).2.2

/-! ## Claim C5 -/

/-- C5: the `ToolNode` step answers exactly the pending requests of the
immediately preceding assistant message — one tool-role message per
request, in emission order, each carrying that request's id — whatever
messages came before; and in the one-call-then-stop scenario the run
produces exactly one tool-role message, its `tool_call_id` is the original
request's id, and the machine terminates. -/
theorem tool_results_match_pending_requests
    (script : Nat → String × List ToolCall) (execTool : ToolCall → String)
    (msg : String) (fuel : Nat) (tc : ToolCall) (hfuel : 2 ≤ fuel)
    (h0 : (script 0).2 = [tc]) (h1 : (script 1).2 = []) :
    (∀ (ms : List Message) (c : String) (calls : List ToolCall),
        tool_node execTool (ms ++ [Message.ai c calls])
          = calls.map (fun t => Message.tool (execTool t) t.id))
    ∧ run_graph script execTool fuel 0 (initial_messages msg)
        = some (initial_messages msg
            ++ [Message.ai (script 0).1 [tc],
                Message.tool (execTool tc) tc.id,
                Message.ai (script 1).1 []])
    ∧ ((initial_messages msg
            ++ [Message.ai (script 0).1 [tc],
                Message.tool (execTool tc) tc.id,
                Message.ai (script 1).1 []]).filter
          Message.is_tool_role).map (fun m => match m with
            | Message.tool _ i => i
            | _ => "")
        = [tc.id] := by
  obtain ⟨fuel, rfl⟩ : ∃ k, fuel = k + 2 :=
    ⟨fuel - 2, by omega⟩
  refine ⟨?_, ?_, ?_⟩
  · intro ms c calls
    simp [tool_node, Message.tool_calls]
  · have step1 :
        run_graph script execTool (fuel + 2) 0 (initial_messages msg)
          = run_graph script execTool (fuel + 1) 1
              (initial_messages msg
                ++ [Message.ai (script 0).1 [tc],
                    Message.tool (execTool tc) tc.id]) := by
      simp [run_graph, should_continue, h0, tool_node, Message.tool_calls]
    rw [step1]
    simp [run_graph, should_continue, h1, Message.tool_calls,
      List.append_assoc]
  · simp [initial_messages, fc_system_prompt, Message.is_tool_role,
      List.filter]

/-- C5 witness: a concrete two-round script — one calculator call answered
by one matching tool message, then termination. -/
theorem tool_results_match_pending_requests_witness :
    run_graph
        (fun n => if n = 0 then ("", [ToolCall.mk "call_1" "calculator" "1+1"])
                  else ("done", []))
        (fun _ => "2") 4 0 (initial_messages "add")
      = some (initial_messages "add"
          ++ [Message.ai "" [ToolCall.mk "call_1" "calculator" "1+1"],
              Message.tool "2" "call_1",
              Message.ai "done" []]) :=
  (tool_results_match_pending_requests
    (fun n => if n = 0 then ("", [ToolCall.mk "call_1" "calculator" "1+1"])
              else ("done", []))
    (fun _ => "2") "add" 4 (ToolCall.mk "call_1" "calculator" "1+1")
    (by decide) rfl rfl).2.1

/-! ## Claim C8 -/

/-- Auxiliary for C8: if every scripted model response carries at least one
tool call, the graph never reaches `END`: every fuel bound is exhausted
from any state and any round index. -/
theorem run_graph_none_of_always_tool_calls
    (script : Nat → String × List ToolCall) (execTool : ToolCall → String)
    (hscript : ∀ k, (script k).2 ≠ []) :
    ∀ (fuel round : Nat) (messages : List Message),
      run_graph script execTool fuel round messages = none := by
  intro fuel
  induction fuel with
  | zero => intro round messages; rfl
  | succ fuel ih =>
    intro round messages
    simp [run_graph, should_continue, Message.tool_calls, hscript round, ih]

/-- C8: the machine has no iteration ceiling.  For every bound `n` there
is a script of model responses, each carrying at least one tool-call
request, under which the run consumes `n` model round trips without
reaching `END` (and indeed exhausts every fuel bound): termination rests
solely on the inference service eventually answering without tool calls. -/
theorem no_maximum_loop_count
    (n : Nat) (execTool : ToolCall → String) (msg : String) :
    ∃ script : Nat → String × List ToolCall,
      (∀ k, (script k).2 ≠ [])
      ∧ run_graph script execTool n 0 (initial_messages msg) = none := by
  refine ⟨fun _ => ("", [ToolCall.mk "c" "calculator" "1+1"]), ?_, ?_⟩
  · intro k
    simp
  · exact run_graph_none_of_always_tool_calls _ execTool
      (fun k => by simp) n 0 (initial_messages msg)

/-! ## Retrieval pipeline (`src/rag_agent.py`, lines 106-142)

ChromaDB is an external collaborator: `collection.query` is a scripted
function from a query embedding and `n_results` to a raw result.  Distances
are modelled as rationals (the order structure is all the code consumes).
Metadata mappings are association lists with Python-dict update/get
semantics. -/

/-- A Python `dict[str, str]` metadata mapping, as an association list in
insertion order with unique keys. -/
abbrev Metadata := List (String × String)

/-- Python dict lookup `m.get(key, dflt)`. -/
def metaGet (m : Metadata) (key dflt : String) : String :=
  match m.lookup key with
  | some v => v
  | none => dflt

/-- The per-query slice of a ChromaDB `collection.query` result: the inner
lists `results["ids"][0]`, `results["documents"][0]`, etc. -/
structure QueryResult where
  ids : List String
  documents : List String
  metadatas : List Metadata
  distances : List ℚ
deriving Repr, DecidableEq

/-- One formatted retrieval hit, as the dict built per loop iteration in
`retrieve_documents`. -/
structure RetrievedDoc where
  content : String
  metadata : Metadata
  distance : ℚ
  id : String
deriving Repr, DecidableEq

/-- The `for i, doc in enumerate(results["documents"][0])` loop body of
`RAGAgent.retrieve_documents`: one `RetrievedDoc` per document at running
index `i`, defaulting the metadata to `{}`, the distance to `0.0` and the
id to `f"doc_{i}"` when the corresponding inner list is empty. -/
def format_rows (metadatas : List Metadata) (distances : List ℚ)
    (ids : List String) : Nat → List String → List RetrievedDoc
  | _, [] => []
  | i, doc :: rest =>
    { content := doc
      metadata := if metadatas = [] then [] else metadatas.getD i []
      distance := if distances = [] then 0 else distances.getD i 0
      id := if ids = [] then "doc_" ++ toString i
            else ids.getD i ("doc_" ++ toString i) }
      :: format_rows metadatas distances ids (i + 1) rest

/-- The result-formatting phase of `RAGAgent.retrieve_documents`: enumerate
the returned documents from index 0 (the loop is skipped entirely when
`results["documents"][0]` is empty). -/
def format_query_result (res : QueryResult) : List RetrievedDoc :=
  format_rows res.metadatas res.distances res.ids 0 res.documents

/-- Method `RAGAgent.retrieve_documents(query, top_k)`: embed the query through
the embedding collaborator, query the Chroma collection with
`n_results = top_k`, and format the raw result. -/
def retrieve_documents (encode : String → List ℚ)
    (chromaQuery : List ℚ → Nat → QueryResult)
    (query : String) (top_k : Nat) : List RetrievedDoc :=
  format_query_result (chromaQuery (encode query) top_k)

/-- Boolean non-decreasing (ascending-distance) check on a list. -/
def nondecreasing : List ℚ → Bool
  | [] => true
  | [_] => true
  | a :: b :: rest => decide (a ≤ b) && nondecreasing (b :: rest)

/-- The length of the formatted result is the number of returned
documents. -/
theorem format_rows_length (metadatas : List Metadata)
    (distances : List ℚ) (ids : List String) :
    ∀ (docs : List String) (i : Nat),
      (format_rows metadatas distances ids i docs).length = docs.length := by
  intro docs
  induction docs with
  | nil => intro i; rfl
  | cons doc rest ih =>
    intro i
    simp [format_rows, ih]

/-- The formatting loop reproduces the store's distance column from the
running index on, when the raw result's columns are aligned. -/
theorem format_rows_distances (metadatas : List Metadata)
    (distances : List ℚ) (ids : List String) :
    ∀ (docs : List String) (i : Nat),
      i + docs.length = distances.length →
      (format_rows metadatas distances ids i docs).map (fun d => d.distance)
        = distances.drop i := by
  intro docs
  induction docs with
  | nil =>
    intro i hi
    simp only [List.length_nil, Nat.add_zero] at hi
    simp [format_rows, hi, List.drop_length]
  | cons doc rest ih =>
    intro i hi
    have hlt : i < distances.length := by
      simp only [List.length_cons] at hi
      omega
    have hne : distances ≠ [] := by
      intro h
      rw [h] at hlt
      simp at hlt
    rw [List.drop_eq_getElem_cons hlt]
    simp only [format_rows, List.map_cons]
    refine congrArg₂ _ ?_ ?_
    · simp [hne, List.getElem?_eq_getElem hlt]
    · apply ih
      simp only [List.length_cons] at hi
      omega

/-- The formatted distance column is exactly the store's distance column
when the raw result's parallel lists are aligned. -/
theorem format_query_result_distances (res : QueryResult)
    (hlen : res.distances.length = res.documents.length) :
    (format_query_result res).map (fun d => d.distance) = res.distances := by
  have := format_rows_distances res.metadatas res.distances res.ids
    res.documents 0 (by omega)
  simpa [format_query_result] using this

/-! ## Claim C4 -/

/-- C4: for a non-empty query and `top_k = k ≥ 1`, under the ChromaDB
query contract (at most `n_results` hits, parallel aligned columns,
distances ascending), `retrieve_documents` returns at most `k` documents,
sorted by non-decreasing distance, closest first. -/
theorem retrieve_documents_le_k_sorted
    (encode : String → List ℚ) (chromaQuery : List ℚ → Nat → QueryResult)
    (query : String) (k : Nat) (hq : query ≠ "") (hk : 1 ≤ k)
    (hle : (chromaQuery (encode query) k).documents.length ≤ k)
    (hlen : (chromaQuery (encode query) k).distances.length
              = (chromaQuery (encode query) k).documents.length)
    (hsorted : nondecreasing (chromaQuery (encode query) k).distances = true) :
    (retrieve_documents encode chromaQuery query k).length ≤ k
    ∧ nondecreasing
        ((retrieve_documents encode chromaQuery query k).map
          (fun d => d.distance)) = true := by
  constructor
  · simpa [retrieve_documents, format_query_result, format_rows_length]
      using hle
  · rw [retrieve_documents, format_query_result_distances _ hlen]
    exact hsorted

/-- C4 witness: a two-hit store answer at distances 1/4 ≤ 1/2 for `k = 3`. -/
theorem retrieve_documents_le_k_sorted_witness :
    (retrieve_documents (fun _ => [1])
        (fun _ _ => QueryResult.mk ["a", "b"] ["Python", "Chroma"]
          [[("source", "python_intro")], [("source", "chromadb_info")]]
          [1, 2])
        "Who created Python?" 3).length ≤ 3
    ∧ nondecreasing
        ((retrieve_documents (fun _ => [1])
            (fun _ _ => QueryResult.mk ["a", "b"] ["Python", "Chroma"]
              [[("source", "python_intro")], [("source", "chromadb_info")]]
              [1, 2])
            "Who created Python?" 3).map (fun d => d.distance)) = true :=
  retrieve_documents_le_k_sorted (fun _ => [1])
    (fun _ _ => QueryResult.mk ["a", "b"] ["Python", "Chroma"]
      [[("source", "python_intro")], [("source", "chromadb_info")]]
      [1, 2])
    "Who created Python?" 3 (by decide) (by decide)
    (by decide) (by decide) (by decide)

/-! ## RAG generation (`src/rag_agent.py`, lines 144-187) -/

/-- The context block of `RAGAgent.generate_response`: one
`"Source: {source}\nContent: {content}"` part per retrieved document, in
retrieval order, joined with `"\n\n"`; a document's missing `source`
metadata defaults to `"unknown"`. -/
def build_context (relevant_docs : List RetrievedDoc) : String :=
  String.intercalate "\n\n" (relevant_docs.map (fun d =>
    "Source: " ++ metaGet d.metadata "source" "unknown"
      ++ "\nContent: " ++ d.content))

/-- The augmented prompt template of `RAGAgent.generate_response`, exactly
as the Python f-string renders it (including its stray quote characters and
indentation), with the context block and the query spliced in. -/
def rag_prompt (context_text query : String) : String :=
  "Based on the following context information, please answer the question.\"\n                \"If the context doesn\x27t contain relevant information, you can use your general knowledge\"\n                \"but mention that the information is not from the provided context.\n\nContext:\n"
    ++ context_text ++ "\n\nQuestion: " ++ query ++ "\n\nAnswer:"

/-- Method `RAGAgent.generate_response(query, include_context)`.  The retrieval
step (`self.retrieve_documents(query)`, i.e. the embedding and store
collaborators) is a scripted `PyResult`; the Ollama chat collaborator is a
scripted function of the prompt.  The whole body sits in one
`try/except Exception` that renders any raised failure as
`"Error generating RAG response: " + str(e)`, so the call itself never
raises.  The second component records each prompt sent to the inference
service, in order. -/
def rag_generate_response (retrieval : PyResult (List RetrievedDoc))
    (chat : String → PyResult String) (query : String)
    (include_context : Bool) : String × List String :=
  if include_context then
    match retrieval with
    | .error e => ("Error generating RAG response: " ++ e.msg, [])
    | .ok relevant_docs =>
      let context_text :=
        if relevant_docs ≠ [] then build_context relevant_docs else ""
      let prompt :=
        if context_text ≠ "" then rag_prompt context_text query else query
      match chat prompt with
      | .ok resp => (resp, [prompt])
      | .error e => ("Error generating RAG response: " ++ e.msg, [prompt])
  else
    match chat query with
    | .ok resp => (resp, [query])
    | .error e => ("Error generating RAG response: " ++ e.msg, [query])

/-- The accumulator of `String.intercalate`'s worker never shrinks. -/
theorem intercalate_go_length (s : String) :
    ∀ (as : List String) (acc : String),
      acc.length ≤ (String.intercalate.go acc s as).length := by
  intro as
  induction as with
  | nil => intro acc; exact Nat.le_refl _
  | cons a rest ih =>
    intro acc
    refine Nat.le_trans ?_ (ih (acc ++ s ++ a))
    simp [String.length_append]
    omega

/-- A non-empty document list yields a non-empty context block (every part
begins with `"Source: "`). -/
theorem build_context_ne_empty (d : RetrievedDoc)
    (rest : List RetrievedDoc) : build_context (d :: rest) ≠ "" := by
  intro h
  have h1 : ("Source: " ++ metaGet d.metadata "source" "unknown"
        ++ "\nContent: " ++ d.content).length
      ≤ (build_context (d :: rest)).length := by
    simp only [build_context, List.map_cons, String.intercalate]
    exact intercalate_go_length _ _ _
  rw [h] at h1
  have h8 : ("Source: " : String).length = 8 := rfl
  have h0 : ("" : String).length = 0 := rfl
  simp only [String.length_append, h0] at h1
  omega

/-! ## Claim C6 -/

/-- C6: with `include_context = true` and a successful retrieval, the
pipeline sends exactly one prompt to the inference service, whatever the
chat collaborator then does: the bare query when no document was retrieved,
and otherwise the augmented template around the context block that joins
each document's source metadata and content with blank lines, in retrieval
order, together with the original query text. -/
theorem rag_single_augmented_prompt
    (relevant_docs : List RetrievedDoc) (chat : String → PyResult String)
    (query : String) :
    ((rag_generate_response (Except.ok relevant_docs) chat query true).2.length
        = 1)
    ∧ (relevant_docs = [] →
        (rag_generate_response (Except.ok relevant_docs) chat query true).2
          = [query])
    ∧ (relevant_docs ≠ [] →
        (rag_generate_response (Except.ok relevant_docs) chat query true).2
          = [rag_prompt (build_context relevant_docs) query]
        ∧ build_context relevant_docs
            = String.intercalate "\n\n" (relevant_docs.map (fun d =>
                "Source: " ++ metaGet d.metadata "source" "unknown"
                  ++ "\nContent: " ++ d.content))) := by
  have main : (rag_generate_response (Except.ok relevant_docs) chat query
        true).2
      = if relevant_docs = [] then [query]
        else [rag_prompt (build_context relevant_docs) query] := by
    rcases relevant_docs with _ | ⟨d, rest⟩
    · rcases hc : chat query with e | r <;>
        simp [rag_generate_response, hc]
    · have hne : build_context (d :: rest) ≠ "" := build_context_ne_empty d rest
      rcases hc : chat (rag_prompt (build_context (d :: rest)) query)
          with e | r <;>
        simp [rag_generate_response, hne, hc]
  refine ⟨?_, ?_, ?_⟩
  · rw [main]
    rcases relevant_docs with _ | _ <;> simp
  · intro h
    rw [main, if_pos h]
  · intro h
    exact ⟨by rw [main, if_neg h], rfl⟩

/-- C6 witness: one retrieved document and the bare-query case evaluated on
concrete inputs. -/
theorem rag_single_augmented_prompt_witness :
    (rag_generate_response
        (Except.ok [RetrievedDoc.mk "Python was created in 1991."
          [("source", "python_intro")] 1 "a"])
        (fun _ => Except.ok "answer") "Who created Python?" true).2
      = [rag_prompt
          (build_context [RetrievedDoc.mk "Python was created in 1991."
            [("source", "python_intro")] 1 "a"])
          "Who created Python?"] :=
  ((rag_single_augmented_prompt
      [RetrievedDoc.mk "Python was created in 1991."
        [("source", "python_intro")] 1 "a"]
      (fun _ => Except.ok "answer") "Who created Python?").2.2
    (by decide)).1

/-! ## Conversation orchestrator (`src/main.py`, lines 39-66)

`SimpleChatbot.generate_response` tries the RAG agent, then the function
agent, then a direct `ollama.chat` call, each in its own
`try/except Exception`.  Each strategy call is scripted as the `PyResult`
of that call site; the overall result is a `PyResult` so that "the call
raised" is expressible (and refuted). -/

/-- Method `SimpleChatbot.generate_response(user_query)`.  `use_rag_agent` /
`rag_agent_present` model the flag and the constructed-agent check of
`if self.use_rag_agent and self.rag_agent:` (likewise for the function
agent); `ragCall`, `funcCall` and `ollamaChat` are the scripted outcomes of
`self.rag_agent.generate_response(user_query)`,
`self.function_agent.invoke(user_query)` and the direct `ollama.chat`
call. -/
def chatbot_generate_response (use_rag_agent rag_agent_present : Bool)
    (use_function_agent function_agent_present : Bool)
    (ragCall funcCall ollamaChat : PyResult String) : PyResult String :=
  let plain_step : PyResult String :=
    match ollamaChat with
    | .ok content => .ok content
    | .error e => .ok ("Error generating response: " ++ e.msg)
  let func_step : PyResult String :=
    if use_function_agent && function_agent_present then
      match funcCall with
      | .ok s => .ok s
      | .error _ => plain_step
    else plain_step
  if use_rag_agent && rag_agent_present then
    match ragCall with
    | .ok s => .ok s
    | .error _ => func_step
  else func_step

/-! ## Claim C7 -/

/-- C7: whatever the three collaborator calls do — each may return or
raise, in any combination — `SimpleChatbot.generate_response` returns a
string and never raises; and when the RAG and function strategies both
raise and the direct chat call also raises, the returned text is the
terminal `"Error generating response: " + str(e)` message of the plain
path. -/
theorem orchestrator_never_raises (use_rag_agent rag_agent_present
    use_function_agent function_agent_present : Bool)
    (ragCall funcCall ollamaChat : PyResult String) :
    (∃ s : String,
      chatbot_generate_response use_rag_agent rag_agent_present
        use_function_agent function_agent_present ragCall funcCall ollamaChat
        = .ok s)
    ∧ (∀ e1 e2 e3 : PyErr, ragCall = .error e1 → funcCall = .error e2 →
        ollamaChat = .error e3 →
        chatbot_generate_response use_rag_agent rag_agent_present
          use_function_agent function_agent_present ragCall funcCall
          ollamaChat
          = .ok ("Error generating response: " ++ e3.msg)) := by
  constructor
  · rcases ragCall with e1 | s1 <;> rcases funcCall with e2 | s2 <;>
      rcases ollamaChat with e3 | s3 <;>
      rcases use_rag_agent <;> rcases rag_agent_present <;>
      rcases use_function_agent <;> rcases function_agent_present <;>
      exact ⟨_, rfl⟩
  · intro e1 e2 e3 h1 h2 h3
    subst h1 h2 h3
    rcases use_rag_agent <;> rcases rag_agent_present <;>
      rcases use_function_agent <;> rcases function_agent_present <;> rfl

/-- C7 witness: all three strategies raise; the orchestrator still returns
the plain-path error text. -/
theorem orchestrator_never_raises_witness :
    chatbot_generate_response true true true true
        (Except.error (PyErr.other "rag down"))
        (Except.error (PyErr.other "llm down"))
        (Except.error (PyErr.other "ollama down"))
      = Except.ok "Error generating response: ollama down" := by
  have h := (orchestrator_never_raises true true true true
      (Except.error (PyErr.other "rag down"))
      (Except.error (PyErr.other "llm down"))
      (Except.error (PyErr.other "ollama down"))).2
      (PyErr.other "rag down") (PyErr.other "llm down")
      (PyErr.other "ollama down") rfl rfl rfl
  simpa using h

/-! ## Claim C2 -/

/-- C2 counterexample: RAG and tool-calling both enabled; the embedding /
store call raises `"boom"` inside the RAG attempt, the function agent
succeeds with `"tool result"`.  Because `RAGAgent.generate_response`
catches its own failure and returns it as text, the orchestrator receives
a normal return and short-circuits on it: the final text is the RAG error
artifact `"Error generating RAG response: boom"`, not the tool-calling
result. -/
theorem rag_failure_shortcircuits_cex :
    chatbot_generate_response true true true true
        (Except.ok (rag_generate_response
            (Except.error (PyErr.other "boom"))
            (fun _ => Except.ok "chat answer") "q" true).1)
        (Except.ok "tool result")
        (Except.ok "plain answer")
      = Except.ok "Error generating RAG response: boom"
    ∧ ("Error generating RAG response: boom" : String) ≠ "tool result" := by
  constructor
  · rfl
  · decide

/-- C2 amended: when the embedding or store call raises during the RAG
attempt, the RAG agent's own catch-all converts it to text and the
orchestrator returns that string; the orchestrator's fall-through to the
function agent's successful result happens only when the call to the RAG
agent itself raises. -/
theorem rag_failure_amended (e : PyErr) (chat : String → PyResult String)
    (query : String) (funcResult : String) (ollamaChat : PyResult String)
    (eRag : PyErr) :
    chatbot_generate_response true true true true
        (Except.ok (rag_generate_response (Except.error e) chat query
          true).1)
        (Except.ok funcResult) ollamaChat
      = Except.ok ("Error generating RAG response: " ++ e.msg)
    ∧ chatbot_generate_response true true true true (Except.error eRag)
        (Except.ok funcResult) ollamaChat
      = Except.ok funcResult := by
  constructor
  · rfl
  · rfl

/-- C2 amended witness: concrete failure message and tool-calling result
in both branches of the amended statement. -/
theorem rag_failure_amended_witness :
    chatbot_generate_response true true true true
        (Except.ok (rag_generate_response
            (Except.error (PyErr.other "boom"))
            (fun _ => Except.ok "chat answer") "q" true).1)
        (Except.ok "tool result") (Except.ok "plain answer")
      = Except.ok "Error generating RAG response: boom"
    ∧ chatbot_generate_response true true true true
        (Except.error (PyErr.other "agent call raised"))
        (Except.ok "tool result") (Except.ok "plain answer")
      = Except.ok "tool result" :=
  rag_failure_amended (PyErr.other "boom")
    (fun _ => Except.ok "chat answer") "q" "tool result"
    (Except.ok "plain answer") (PyErr.other "agent call raised")

/-! ## Document store adapter (`src/rag_agent.py`, lines 44-104)

`add_document` validates the content, then calls the embedding model and
`collection.add`; both collaborator calls are scripted `PyResult Unit`
outcomes.  `add_document_from_file` resolves the path, reads the file (the
decoded text and the existence check are scripted), mutates the
caller-supplied metadata mapping in place via `metadata.update(...)`, and
delegates to `add_document`; the returned pair carries the post-call state
of the caller's mapping, `none` when the caller passed no mapping. -/

/-- Python `str.isspace()`, the character class `str.strip()` removes:
the ASCII whitespace 0x09-0x0d and 0x20, the file/group/record/unit
separators 0x1c-0x1f, the next-line character 0x85, the no-break space
0xa0, and the Unicode space/line/paragraph separators 0x1680,
0x2000-0x200a, 0x2028, 0x2029, 0x202f, 0x205f and 0x3000. -/
def pyIsSpace (c : Char) : Bool :=
  let n := c.toNat
  decide (9 ≤ n ∧ n ≤ 13) || decide (n = 32)
    || decide (28 ≤ n ∧ n ≤ 31) || decide (n = 0x85) || decide (n = 0xa0)
    || decide (n = 0x1680) || decide (0x2000 ≤ n ∧ n ≤ 0x200a)
    || decide (n = 0x2028) || decide (n = 0x2029) || decide (n = 0x202f)
    || decide (n = 0x205f) || decide (n = 0x3000)

/-- Falsiness of `content.strip()`: the content is empty or
whitespace-only. -/
def isBlank (content : String) : Bool :=
  content.toList.all pyIsSpace

/-- Method `RAGAgent.add_document(content, metadata, doc_id)` with the collection
count at `count`: reject blank content with a `ValueError` before touching
any collaborator; otherwise default the id to `f"doc_{count}"`, run the
embedding and `collection.add` collaborators (whose raised exceptions
propagate), and return the id. -/
def add_document (content : String) (_metadata : Option Metadata)
    (doc_id : Option String) (count : Nat)
    (encode : PyResult Unit) (collection_add : PyResult Unit) :
    PyResult String :=
  if isBlank content then
    .error (PyErr.valueError "Document content cannot be empty")
  else
    let the_id := doc_id.getD ("doc_" ++ toString count)
    match encode with
    | .error e => .error e
    | .ok _ =>
      match collection_add with
      | .error e => .error e
      | .ok _ => .ok the_id

/-! ## Claim C9 -/

/-- C9: with the embedding and store collaborators succeeding,
`add_document` fails with a `ValueError` exactly when the content is empty
or whitespace-only; the validation failure is raised before either
collaborator runs (so it holds for every collaborator behaviour); and for
non-blank content the returned id is the caller-supplied one when given,
else the generated `f"doc_{count}"`. -/
theorem add_document_validation (content : String)
    (metadata : Option Metadata) (doc_id : Option String) (count : Nat)
    (encode collection_add : PyResult Unit)
    (henc : encode = Except.ok ()) (hadd : collection_add = Except.ok ()) :
    ((∃ m, add_document content metadata doc_id count encode collection_add
        = Except.error (PyErr.valueError m)) ↔ isBlank content = true)
    ∧ (∀ enc2 add2 : PyResult Unit, isBlank content = true →
        add_document content metadata doc_id count enc2 add2
          = Except.error (PyErr.valueError "Document content cannot be empty"))
    ∧ (isBlank content = false →
        add_document content metadata doc_id count encode collection_add
          = Except.ok (doc_id.getD ("doc_" ++ toString count))) := by
  subst henc hadd
  rcases hb : isBlank content with _ | _
  · refine ⟨⟨?_, ?_⟩, ?_, ?_⟩
    · rintro ⟨m, hm⟩
      simp [add_document, hb] at hm
    · intro h
      simp at h
    · intro enc2 add2 h
      simp at h
    · intro _
      simp [add_document, hb]
  · refine ⟨⟨?_, ?_⟩, ?_, ?_⟩
    · intro _
      rfl
    · intro _
      exact ⟨"Document content cannot be empty", by simp [add_document, hb]⟩
    · intro enc2 add2 _
      simp [add_document, hb]
    · intro h
      simp at h

/-- C9 witness: non-blank content with a caller-supplied id returns that
id; blank content — ASCII spaces, or a single no-break space, which
Python's `str.strip()` also removes — raises the `ValueError` even under
failing collaborators. -/
theorem add_document_validation_witness :
    add_document "hello" none (some "my_id") 7 (Except.ok ())
        (Except.ok ()) = Except.ok "my_id"
    ∧ add_document "  " none (some "my_id") 7
        (Except.error (PyErr.other "down")) (Except.ok ())
      = Except.error (PyErr.valueError "Document content cannot be empty")
    ∧ add_document "\u00A0" none (some "my_id") 7
        (Except.error (PyErr.other "down")) (Except.ok ())
      = Except.error (PyErr.valueError "Document content cannot be empty") :=
  ⟨(add_document_validation "hello" none (some "my_id") 7 (Except.ok ())
      (Except.ok ()) rfl rfl).2.2 (by decide),
   (add_document_validation "  " none (some "my_id") 7 (Except.ok ())
      (Except.ok ()) rfl rfl).2.1
      (Except.error (PyErr.other "down")) (Except.ok ()) (by decide),
   (add_document_validation "\u00A0" none (some "my_id") 7 (Except.ok ())
      (Except.ok ()) rfl rfl).2.1
      (Except.error (PyErr.other "down")) (Except.ok ()) (by decide)⟩

/-! ## File ingestion (`src/rag_agent.py`, lines 73-104) -/

/-- Python `pathlib.Path(...).name` for the plain `/`-separated paths the chatbot
passes: the final path component. -/
def path_name (file_path : String) : String :=
  (file_path.splitOn "/").getLastD ""

/-- Python `pathlib.Path(...).suffix`: the final `"."`-extension of the name,
empty when the name has none or is itself a leading-dot name. -/
def path_suffix (file_path : String) : String :=
  let n := path_name file_path
  let parts := n.splitOn "."
  if parts.length ≤ 1 then ""
  else if n.startsWith "." && parts.length = 2 then ""
  else "." ++ parts.getLastD ""

/-- Python `pathlib.Path(...).stem`: the name with its suffix removed. -/
def path_stem (file_path : String) : String :=
  (path_name file_path).dropRight (path_suffix file_path).length

/-- One binding of Python's `dict.update`: an existing key keeps its
position and receives the new value, a fresh key is appended at the end. -/
def metaSet (m : Metadata) (key v : String) : Metadata :=
  match m with
  | [] => [(key, v)]
  | (k, w) :: rest =>
    if k = key then (key, v) :: rest else (k, w) :: metaSet rest key v

/-- The three bindings `add_document_from_file` writes into the caller's
metadata mapping, in the order of the `update` dict literal. -/
def file_metadata_update (m : Metadata) (file_path : String) : Metadata :=
  metaSet (metaSet (metaSet m "source" file_path)
    "filename" (path_name file_path)) "file_type" (path_suffix file_path)

/-- Method `RAGAgent.add_document_from_file(file_path, metadata)`.  `file_exists`
scripts `Path(file_path).exists()`; `content` is the decoded file text;
`count` is the collection count when the id is generated.  The second
component is the caller's metadata mapping after the call (`none` when the
caller passed no mapping): `metadata.update(...)` mutates the caller's
dict in place, before `add_document` is invoked. -/
def add_document_from_file (file_path : String) (metadata : Option Metadata)
    (file_exists : Bool) (content : String) (count : Nat)
    (encode collection_add : PyResult Unit) :
    PyResult String × Option Metadata :=
  if file_exists = false then
    (.error (PyErr.fileNotFound ("File not found: " ++ file_path)), metadata)
  else
    let m0 := metadata.getD []
    let m1 := file_metadata_update m0 file_path
    let doc_id := "file_" ++ path_stem file_path ++ "_" ++ toString count
    (add_document content (some m1) (some doc_id) count encode collection_add,
     metadata.map (fun _ => m1))

/-- Setting a key: `metaSet` writes the requested binding. -/
theorem lookup_metaSet_self (m : Metadata) (key v : String) :
    (metaSet m key v).lookup key = some v := by
  induction m with
  | nil => simp [metaSet, List.lookup]
  | cons kv rest ih =>
    rcases kv with ⟨k, w⟩
    by_cases h : k = key
    · subst h
      simp [metaSet, List.lookup]
    · have hbk : (key == k) = false :=
        beq_eq_false_iff_ne.mpr (fun e => h e.symm)
      simp [metaSet, h, List.lookup, hbk, ih]

/-- Setting a key: `metaSet` leaves every other key's binding alone. -/
theorem lookup_metaSet_other (m : Metadata) (key v k2 : String)
    (h : k2 ≠ key) :
    (metaSet m key v).lookup k2 = m.lookup k2 := by
  have hbk : (k2 == key) = false := beq_eq_false_iff_ne.mpr h
  induction m with
  | nil => simp [metaSet, List.lookup, hbk]
  | cons kv rest ih =>
    rcases kv with ⟨k, w⟩
    by_cases hk : k = key
    · subst hk
      simp [metaSet, List.lookup, hbk]
    · simp only [metaSet, if_neg hk, List.lookup]
      rcases hbk2 : (k2 == k) with _ | _
      · simp [hbk2, ih]
      · simp [hbk2]

/-! ## Claim C10 -/

/-- C10: when the file exists and the caller supplied a metadata mapping,
`add_document_from_file` mutates that mapping in place — afterwards it is
exactly the original mapping with `"source"`, `"filename"` and
`"file_type"` bound to the path-derived values (any caller-supplied values
under those keys silently replaced), every other binding untouched; in
particular a mapping without a `"source"` key does not come back
unchanged.  This holds whatever the embedding and store collaborators do,
and also when the content is blank (the mutation precedes the
`add_document` call). -/
theorem add_document_from_file_mutates_metadata (file_path : String)
    (m : Metadata) (content : String) (count : Nat)
    (encode collection_add : PyResult Unit) :
    (add_document_from_file file_path (some m) true content count
        encode collection_add).2
      = some (file_metadata_update m file_path)
    ∧ (file_metadata_update m file_path).lookup "source" = some file_path
    ∧ (file_metadata_update m file_path).lookup "filename"
        = some (path_name file_path)
    ∧ (file_metadata_update m file_path).lookup "file_type"
        = some (path_suffix file_path)
    ∧ (∀ k, k ≠ "source" → k ≠ "filename" → k ≠ "file_type" →
        (file_metadata_update m file_path).lookup k = m.lookup k)
    ∧ (m.lookup "source" = none →
        (add_document_from_file file_path (some m) true content count
          encode collection_add).2 ≠ some m) := by
  have hmain : (add_document_from_file file_path (some m) true content count
      encode collection_add).2 = some (file_metadata_update m file_path) := by
    simp [add_document_from_file]
  have hd1 : ("source" : String) ≠ "file_type" := by decide
  have hd2 : ("source" : String) ≠ "filename" := by decide
  have hd3 : ("filename" : String) ≠ "file_type" := by decide
  have hsrc : (file_metadata_update m file_path).lookup "source"
      = some file_path := by
    simp only [file_metadata_update]
    rw [lookup_metaSet_other _ _ _ _ hd1, lookup_metaSet_other _ _ _ _ hd2,
      lookup_metaSet_self]
  refine ⟨hmain, hsrc, ?_, ?_, ?_, ?_⟩
  · simp only [file_metadata_update]
    rw [lookup_metaSet_other _ _ _ _ hd3, lookup_metaSet_self]
  · simp only [file_metadata_update]
    rw [lookup_metaSet_self]
  · intro k hk1 hk2 hk3
    simp only [file_metadata_update]
    rw [lookup_metaSet_other _ _ _ _ hk3, lookup_metaSet_other _ _ _ _ hk2,
      lookup_metaSet_other _ _ _ _ hk1]
  · intro hnone heq
    rw [hmain] at heq
    have hm : file_metadata_update m file_path = m := Option.some.inj heq
    rw [hm] at hsrc
    rw [hnone] at hsrc
    cases hsrc

/-- C10 witness: a mapping with a stale `"source"` and an unrelated
`"author"` key, for the path `"docs/note.txt"`: `"source"` is overwritten
with the path and `"author"` survives. -/
theorem add_document_from_file_mutates_metadata_witness :
    (add_document_from_file "docs/note.txt"
        (some [("source", "orig"), ("author", "me")]) true "hello" 2
        (Except.ok ()) (Except.ok ())).2
      = some (file_metadata_update [("source", "orig"), ("author", "me")]
          "docs/note.txt")
    ∧ (file_metadata_update [("source", "orig"), ("author", "me")]
        "docs/note.txt").lookup "source" = some "docs/note.txt"
    ∧ (file_metadata_update [("source", "orig"), ("author", "me")]
        "docs/note.txt").lookup "author" = some "me" := by
  have h := add_document_from_file_mutates_metadata "docs/note.txt"
    [("source", "orig"), ("author", "me")] "hello" 2
    (Except.ok ()) (Except.ok ())
  refine ⟨h.1, h.2.1, ?_⟩
  rw [h.2.2.2.2.1 "author" (by decide) (by decide) (by decide)]
  rfl
